import Mathlib

/-
Shallow embedding of src/FernhillDBTransferTool.py.

The program mirrors historic tables from a Fernhill (pyodbc) source into a
PostgreSQL (sqlalchemy) destination:
  - convert_time     (lines 17-31)  : seconds -> "H:MM:SS" via divmod and "%d:%02d:%02d"
  - hist_data_index  (lines 34-68)  : reconcile destination catalog against the
                                      source HistoricDataIndex, replacing the
                                      mirrored historicdataindex table and
                                      dropping stale destination tables
  - hist_data        (lines 71-108) : per-table transfer loop, loading each
                                      fetched table into the fixed staging table
                                      'temptable' and adding an entryid serial
                                      primary key; only pyodbc.ProgrammingError
                                      is caught
  - table_transfer   (lines 111-154): open connections, version probe,
                                      reconcile, transfer, time the transfer,
                                      close the source connection on success
  - main loop        (lines 295-393): GUI event loop with the twice-daily
                                      scheduled trigger and the updating flag

The destination database is modelled as an association list from table names to
tables; cells are a sum of strings and integers so that index entries embed
injectively.  Failure points of the real program (connection errors, query
errors, drop errors) are modelled by explicit boolean / Except-valued oracles.
-/

namespace FDT

/-- Cell of a database row: a string or an integer value. -/
inductive Cell where
  | str : String → Cell
  | int : Int → Cell
  deriving DecidableEq, Repr

/-- Row of a table, as returned by the source. -/
abbrev Row := List Cell

/-- Table: metadata of columns plus rows, as held by a pandas dataframe
and as materialised in the destination. -/
structure Table where
  cols : List String
  rows : List Row
  deriving DecidableEq, Repr

/-- Destination database: association list, table name to table. -/
abbrev DestDB := List (String × Table)

/-- Names of the tables in the destination schema, as enumerated from
information_schema.tables (lines 50-56). -/
def tableNames (db : DestDB) : List String := db.map Prod.fst

/-- Look up a destination table by name. -/
def lookupTable : DestDB → String → Option Table
  | [], _ => none
  | p :: rest, n => if p.1 = n then some p.2 else lookupTable rest n

/-- DROP TABLE: remove a table from the destination schema (line 66). -/
def dropTable : DestDB → String → DestDB
  | [], _ => []
  | p :: rest, n => if p.1 = n then dropTable rest n else p :: dropTable rest n

/-- to_sql with if_exists='replace': drop any existing table of that name and
create it afresh with the given contents (lines 60 and 102). -/
def setTable (db : DestDB) (n : String) (t : Table) : DestDB :=
  dropTable db n ++ [(n, t)]

/-- Python str.lower() for the ASCII table names at hand: lower-case every
character of the string. -/
def strLower (s : String) : String := ⟨s.data.map Char.toLower⟩

/-- One row of the source HistoricDataIndex
(SourceName, TableName, Units, MinScale, MaxScale, DataType). -/
structure IndexEntry where
  sourceName : String
  tableName : String
  units : String
  minScale : Int
  maxScale : Int
  dataType : Int
  deriving DecidableEq, Repr

/-- Column list of the mirrored index table. -/
def indexCols : List String :=
  ["SourceName", "TableName", "Units", "MinScale", "MaxScale", "DataType"]

/-- One index entry as a destination row. -/
def entryToRow (e : IndexEntry) : Row :=
  [Cell.str e.sourceName, Cell.str e.tableName, Cell.str e.units,
   Cell.int e.minScale, Cell.int e.maxScale, Cell.int e.dataType]

/-- The fetched index dataframe as the table written wholesale to the
destination historicdataindex table (line 60). -/
def indexToTable (idx : List IndexEntry) : Table :=
  { cols := indexCols, rows := idx.map entryToRow }

/-- Exceptions relevant to the transfer loop.  pyodbcProgramming is
pyodbc.ProgrammingError, the only type the loop catches (line 107);
pyodbcOther stands for any other source-side pyodbc error (an
OperationalError, say); destError stands for a destination-side
sqlalchemy/psycopg2 error, which is never a pyodbc.ProgrammingError. -/
inductive PyExc where
  | pyodbcProgramming
  | pyodbcOther
  | destError
  deriving DecidableEq, Repr

/-- Zero-padding to two digits, modelling the %02d format directive. -/
def fmt2 (n : Nat) : String :=
  if n < 10 then "0" ++ toString n else toString n

/-- convert_time (lines 17-31): divmod by 60 twice, then "%d:%02d:%02d"
(the hour is not padded; minutes and seconds are padded to two digits). -/
def convert_time (sec : Nat) : String :=
  let m := sec / 60
  let s := sec % 60
  let hour := m / 60
  let m2 := m % 60
  toString hour ++ ":" ++ fmt2 m2 ++ ":" ++ fmt2 s

/-- The stale-table drop loop of hist_data_index (lines 64-67).
dropFails says whether the DROP TABLE statement for a given name raises;
there is no try/except around it in the source, so a raise aborts the loop.
Returns the destination state together with an aborted flag. -/
def dropLoop (dropFails : String → Bool) (total : List String) :
    List String → DestDB → DestDB × Bool
  | [], db => (db, false)
  | entry :: rest, db =>
    if entry ∉ total ∧ entry ≠ "historicdataindex" then
      if dropFails entry then (db, true)
      else dropLoop dropFails total rest (dropTable db entry)
    else dropLoop dropFails total rest db

/-- hist_data_index (lines 34-68): enumerate the destination catalog, fetch
the source index (indexFetchOk false means the read_sql_query at line 59
raises), replace the mirrored historicdataindex table wholesale, lower-case
the fetched TableName values, and drop every catalog entry that is neither
in that lower-cased list nor named historicdataindex.  Returns the
destination state and an aborted flag. -/
def hist_data_index (indexFetchOk : Bool) (dropFails : String → Bool)
    (idx : List IndexEntry) (db : DestDB) : DestDB × Bool :=
  let oldHistorics := tableNames db
  if indexFetchOk = false then (db, true)
  else
    let db1 := setTable db "historicdataindex" (indexToTable idx)
    let total := idx.map (fun e => strLower e.tableName)
    dropLoop dropFails total oldHistorics db1

/-- Number the rows of a table with consecutive integers starting at k,
appending the value as a trailing cell. -/
def numberRows : Nat → List Row → List Row
  | _, [] => []
  | k, r :: rs => (r ++ [Cell.int (Int.ofNat k)]) :: numberRows (k + 1) rs

/-- ALTER TABLE temptable ADD COLUMN entryid SERIAL PRIMARY KEY (line 103):
append an entryid column whose values are 1, 2, ... in insertion order. -/
def addEntryId (t : Table) : Table :=
  { cols := t.cols ++ ["entryid"], rows := numberRows 1 t.rows }

/-- Body of one iteration of the hist_data loop (lines 91-108): fetch the
source table, load it into the fixed staging table 'temptable' with replace
semantics, then add the entryid column.  fetch models the read_sql_query at
line 96 (it may raise any pyodbc or pandas error); loadFails and alterFails
model destination-side failures of to_sql (line 102) and of the ALTER
(line 103), which raise sqlalchemy errors.  The except clause at line 107
catches exactly pyodbc.ProgrammingError; every other exception escapes.
Returns the destination state and the uncaught exception, if any. -/
def syncStep (fetch : String → Except PyExc Table)
    (loadFails alterFails : String → Bool)
    (name : String) (db : DestDB) : DestDB × Option PyExc :=
  match fetch name with
  | .error .pyodbcProgramming => (db, none)
  | .error e => (db, some e)
  | .ok t =>
    if loadFails name then (db, some .destError)
    else
      let db1 := setTable db "temptable" t
      if alterFails name then (db1, some .destError)
      else (setTable db1 "temptable" (addEntryId t), none)

/-- Outcome of the hist_data loop: final destination state, the tables whose
loop iteration ran (ghost observation, the code keeps no such record), and
the uncaught exception that aborted the loop, if any. -/
structure HistDataResult where
  db : DestDB
  attempted : List String
  err : Option PyExc
  deriving Repr

/-- hist_data's per-table loop (lines 90-108), over the TableName values of
the index: each iteration runs syncStep; an uncaught exception ends the loop
at once, so later tables are not attempted. -/
def hist_data (fetch : String → Except PyExc Table)
    (loadFails alterFails : String → Bool) :
    List String → DestDB → HistDataResult
  | [], db => ⟨db, [], none⟩
  | t :: rest, db =>
    match syncStep fetch loadFails alterFails t db with
    | (db1, some e) => ⟨db1, [t], some e⟩
    | (db1, none) =>
      let r := hist_data fetch loadFails alterFails rest db1
      ⟨r.db, t :: r.attempted, r.err⟩

/-- Oracles and ghost data of one table_transfer run.
destConnectOk: dbengine.connect() at line 136 succeeds.
versionProbeOk: the version query at line 138 succeeds.
sourceConnectOk: pyodbc.connect at line 144 succeeds.
indexFetchOk, dropFails, fetchedIndex: oracles of hist_data_index.
fetch, loadFails, alterFails: oracles of hist_data.
reconcileSecs / transferSecs: ghost wall-clock durations of the
hist_data_index call and the hist_data call respectively. -/
structure Env where
  destConnectOk : Bool
  versionProbeOk : Bool
  sourceConnectOk : Bool
  indexFetchOk : Bool
  fetchedIndex : List IndexEntry
  dropFails : String → Bool
  fetch : String → Except PyExc Table
  loadFails : String → Bool
  alterFails : String → Bool
  reconcileSecs : Nat
  transferSecs : Nat

/-- Observable outcome of a table_transfer run: final destination state,
whether the probe connection dbcnxn and the source connection fern_conn are
still open when control leaves the function, the returned time string (some
only on success), whether an exception escaped, and the attempted tables. -/
structure RunState where
  db : DestDB
  destConnOpen : Bool
  fernOpen : Bool
  reported : Option String
  fatal : Bool
  attempted : List String
  deriving Repr

/-- table_transfer (lines 111-154).  The steps, in source order: connect to
the destination (line 136; failure raises with nothing else done), run the
version probe (line 138; failure raises with dbcnxn still open, since there
is no try/finally), close dbcnxn (line 141), connect to the source
(line 144), run hist_data_index (line 147; an escape leaves fern_conn open),
start the timer (line 148), run hist_data (line 149; an escape leaves
fern_conn open), stop the timer, format only the hist_data duration with
convert_time (lines 150-152), close fern_conn (line 153) and return the
formatted time. -/
def table_transfer (env : Env) (db0 : DestDB) : RunState :=
  if env.destConnectOk = false then ⟨db0, false, false, none, true, []⟩
  else if env.versionProbeOk = false then ⟨db0, true, false, none, true, []⟩
  else if env.sourceConnectOk = false then ⟨db0, false, false, none, true, []⟩
  else
    match hist_data_index env.indexFetchOk env.dropFails env.fetchedIndex db0 with
    | (db1, true) => ⟨db1, false, true, none, true, []⟩
    | (db1, false) =>
      let r := hist_data env.fetch env.loadFails env.alterFails
        (env.fetchedIndex.map (fun e => e.tableName)) db1
      match r.err with
      | some _ => ⟨r.db, false, true, none, true, r.attempted⟩
      | none => ⟨r.db, false, false, some (convert_time env.transferSecs), false,
                 r.attempted⟩

/-- Events of the GUI loop relevant to triggering: the 100 ms read timeout,
the Start Update button, and the -UPDATE COMPLETE- completion event. -/
inductive GuiEvent where
  | timeout
  | startUpdate
  | updateComplete
  deriving DecidableEq, Repr

/-- Trigger-relevant state of the main loop: the updating flag and a ghost
count of runs started so far. -/
structure GuiState where
  updating : Bool
  runsStarted : Nat
  deriving DecidableEq, Repr

/-- Scheduled-window test of lines 325 and 330: right_now strictly after
6:00:00 and strictly before 6:01:00, or strictly after 18:00:00 and strictly
before 18:01:00.  Time of day is in seconds since midnight. -/
def scheduledDue (now : Nat) : Bool :=
  (decide (21600 < now) && decide (now < 21660)) ||
  (decide (64800 < now) && decide (now < 64860))

/-- One iteration of the main event loop (lines 320-347), restricted to the
trigger logic.  The scheduled check runs first every iteration (lines
323-334) and is guarded by the updating flag; the Start Update branch (lines
340-344) starts a run with no guard at all; -UPDATE COMPLETE- (lines
345-347) clears the updating flag. -/
def mainStep (autoUpdate : Bool) (now : Nat) (ev : GuiEvent)
    (s : GuiState) : GuiState :=
  let s1 := if autoUpdate && scheduledDue now && !s.updating then
    { updating := true, runsStarted := s.runsStarted + 1 } else s
  match ev with
  | .startUpdate => { updating := true, runsStarted := s1.runsStarted + 1 }
  | .updateComplete => { updating := false, runsStarted := s1.runsStarted }
  | .timeout => s1

/-- Appending destination fragments appends their name lists. -/
theorem tableNames_append (a b : DestDB) :
    tableNames (a ++ b) = tableNames a ++ tableNames b := by
  simp [tableNames]

/-- Membership in the catalog after a DROP TABLE. -/
theorem mem_tableNames_dropTable (db : DestDB) (n m : String) :
    m ∈ tableNames (dropTable db n) ↔ m ∈ tableNames db ∧ m ≠ n := by
  induction db with
  | nil => simp [tableNames, dropTable]
  | cons p rest ih =>
    by_cases h : p.1 = n
    · rw [dropTable, if_pos h, ih]
      subst h
      simp only [tableNames, List.map_cons, List.mem_cons]
      tauto
    · rw [dropTable, if_neg h]
      simp only [tableNames, List.map_cons, List.mem_cons] at ih ⊢
      rw [ih]
      constructor
      · rintro (rfl | ⟨hm, hn⟩)
        · exact ⟨Or.inl rfl, h⟩
        · exact ⟨Or.inr hm, hn⟩
      · rintro ⟨rfl | hm, hn⟩
        · exact Or.inl rfl
        · exact Or.inr ⟨hm, hn⟩

/-- Membership in the catalog after a replace-write of one table. -/
theorem mem_tableNames_setTable (db : DestDB) (n : String) (t : Table) (m : String) :
    m ∈ tableNames (setTable db n t) ↔ (m ∈ tableNames db ∧ m ≠ n) ∨ m = n := by
  rw [setTable, tableNames_append, List.mem_append, mem_tableNames_dropTable]
  simp [tableNames]

/-- A DROP TABLE of one name leaves lookups of any other name unchanged. -/
theorem lookupTable_dropTable_ne (db : DestDB) (n m : String) (h : m ≠ n) :
    lookupTable (dropTable db n) m = lookupTable db m := by
  induction db with
  | nil => rfl
  | cons p rest ih =>
    by_cases hp : p.1 = n
    · rw [dropTable, if_pos hp, ih, lookupTable, if_neg]
      intro hc
      exact h (hc ▸ hp)
    · rw [dropTable, if_neg hp]
      by_cases hm : p.1 = m
      · rw [lookupTable, if_pos hm, lookupTable, if_pos hm]
      · rw [lookupTable, if_neg hm, lookupTable, if_neg hm, ih]

/-- A replace-write makes the written table the one found under its name. -/
theorem lookupTable_setTable_self (db : DestDB) (n : String) (t : Table) :
    lookupTable (setTable db n t) n = some t := by
  induction db with
  | nil => simp [setTable, dropTable, lookupTable]
  | cons p rest ih =>
    by_cases hp : p.1 = n
    · rw [setTable, dropTable, if_pos hp]
      exact ih
    · rw [setTable, dropTable, if_neg hp, List.cons_append, lookupTable, if_neg hp]
      exact ih

/-- The stale-table drop loop never touches the historicdataindex table,
whether or not it aborts. -/
theorem lookupTable_dropLoop_hdi (df : String → Bool) (total olds : List String)
    (db : DestDB) :
    lookupTable (dropLoop df total olds db).1 "historicdataindex" =
      lookupTable db "historicdataindex" := by
  induction olds generalizing db with
  | nil => rfl
  | cons e rest ih =>
    by_cases h : e ∉ total ∧ e ≠ "historicdataindex"
    · cases hf : df e
      · rw [dropLoop, if_pos h, hf]
        simp only [Bool.false_eq_true, if_false]
        rw [ih, lookupTable_dropTable_ne]
        exact Ne.symm h.2
      · rw [dropLoop, if_pos h, hf]
        simp
    · rw [dropLoop, if_neg h]
      exact ih db

/-- Catalog membership after a drop loop that ran to completion: a name
survives iff it was present and is not a droppable entry of the old
catalog listing. -/
theorem mem_tableNames_dropLoop (df : String → Bool) (total olds : List String)
    (db : DestDB) (n : String)
    (hok : (dropLoop df total olds db).2 = false) :
    n ∈ tableNames (dropLoop df total olds db).1 ↔
      n ∈ tableNames db ∧ (n ∉ olds ∨ n ∈ total ∨ n = "historicdataindex") := by
  induction olds generalizing db with
  | nil => simp [dropLoop]
  | cons e rest ih =>
    by_cases h : e ∉ total ∧ e ≠ "historicdataindex"
    · cases hf : df e
      · rw [dropLoop, if_pos h, hf] at hok ⊢
        simp only [Bool.false_eq_true, if_false] at hok ⊢
        rw [ih _ hok, mem_tableNames_dropTable]
        constructor
        · rintro ⟨⟨hdb, hne⟩, hrest⟩
          refine ⟨hdb, ?_⟩
          rcases hrest with h1 | h2
          · exact Or.inl (by simp only [List.mem_cons, not_or]; exact ⟨hne, h1⟩)
          · exact Or.inr h2
        · rintro ⟨hdb, hor⟩
          have hne : n ≠ e := by
            rintro rfl
            rcases hor with h1 | h2 | h3
            · exact h1 (List.mem_cons_self _ _)
            · exact h.1 h2
            · exact h.2 h3
          refine ⟨⟨hdb, hne⟩, ?_⟩
          rcases hor with h1 | h2
          · exact Or.inl fun hr => h1 (List.mem_cons_of_mem _ hr)
          · exact Or.inr h2
      · rw [dropLoop, if_pos h, hf] at hok
        simp at hok
    · rw [dropLoop, if_neg h] at hok ⊢
      rw [ih _ hok]
      have hP : e ∈ total ∨ e = "historicdataindex" := by
        by_contra hc
        push_neg at hc
        exact h ⟨hc.1, hc.2⟩
      constructor
      · rintro ⟨hdb, hor⟩
        refine ⟨hdb, ?_⟩
        by_cases hn : n = e
        · subst hn
          exact Or.inr hP
        · rcases hor with h1 | h2
          · exact Or.inl (by simp only [List.mem_cons, not_or]; exact ⟨hn, h1⟩)
          · exact Or.inr h2
      · rintro ⟨hdb, hor⟩
        refine ⟨hdb, ?_⟩
        rcases hor with h1 | h2
        · exact Or.inl fun hr => h1 (List.mem_cons_of_mem _ hr)
        · exact Or.inr h2

/-- Destination catalog with a mixed-case table name, against an index whose
TableName matches it case-insensitively. -/
def c1db : DestDB := [("TempA", ⟨[], []⟩)]

/-- Index whose only entry has TableName "TempA". -/
def c1idx : List IndexEntry := [⟨"TempA", "TempA", "", 0, 0, 0⟩]

/-- Claim C1 is false as stated: hist_data_index lower-cases only the index
side of the comparison (line 63), not the destination catalog entries, so a
destination table "TempA" is dropped even though its name is present
case-insensitively in the fetched index — reconciliation completes
successfully, the match exists case-insensitively, yet the table is gone. -/
theorem C1_counterexample :
    (hist_data_index true (fun _ => false) c1idx c1db).2 = false ∧
    (∃ e ∈ c1idx, strLower e.tableName = strLower "TempA") ∧
    "TempA" ∈ tableNames c1db ∧
    "TempA" ∉ tableNames (hist_data_index true (fun _ => false) c1idx c1db).1 := by
  decide

/-- Claim C1 (amended): when every destination catalog name is lower-case
(the invariant the destination store guarantees for unquoted identifiers),
a successful hist_data_index run leaves exactly the destination tables whose
names match the fetched index case-insensitively, plus historicdataindex:
D' = (D ∩ I) ∪ set-of historicdataindex, nothing else removed or added. -/
theorem C1_reconcile_set_equation (df : String → Bool) (idx : List IndexEntry)
    (db : DestDB) (n : String)
    (hlow : ∀ m ∈ tableNames db, strLower m = m)
    (hok : (hist_data_index true df idx db).2 = false) :
    n ∈ tableNames (hist_data_index true df idx db).1 ↔
      ((n ∈ tableNames db ∧ ∃ e ∈ idx, strLower e.tableName = strLower n) ∨
        n = "historicdataindex") := by
  simp only [hist_data_index, reduceCtorEq, Bool.false_eq_true, if_false, ite_false] at hok ⊢
  rw [mem_tableNames_dropLoop _ _ _ _ _ hok, mem_tableNames_setTable]
  constructor
  · rintro ⟨hmem1, hor⟩
    rcases hmem1 with ⟨hdb, hne⟩ | rfl
    · rcases hor with habs | htot | hhdi
      · exact absurd hdb habs
      · refine Or.inl ⟨hdb, ?_⟩
        rw [List.mem_map] at htot
        obtain ⟨e, he, heq⟩ := htot
        exact ⟨e, he, heq.trans (hlow n hdb).symm⟩
      · exact absurd hhdi hne
    · exact Or.inr rfl
  · rintro (⟨hdb, e, he, heq⟩ | rfl)
    · by_cases hn : n = "historicdataindex"
      · exact ⟨Or.inr hn, Or.inr (Or.inr hn)⟩
      · refine ⟨Or.inl ⟨hdb, hn⟩, Or.inr (Or.inl ?_)⟩
        rw [List.mem_map]
        exact ⟨e, he, heq.trans (hlow n hdb)⟩
    · exact ⟨Or.inr rfl, Or.inr (Or.inr rfl)⟩

/-- Lower-case destination catalog of the reconciliation scenario: three data
tables and the mirrored index table. -/
def c1wdb : DestDB :=
  [("tempa", ⟨[], []⟩), ("tempb", ⟨[], []⟩), ("tempc", ⟨[], []⟩),
   ("historicdataindex", ⟨[], []⟩)]

/-- Index naming tempA and tempB. -/
def c1widx : List IndexEntry :=
  [⟨"s1", "tempA", "", 0, 0, 0⟩, ⟨"s2", "tempB", "", 0, 0, 0⟩]

/-- Witness for the amended claim C1 on the scenario of the specification:
destination \x7btempa, tempb, tempc, historicdataindex\x7d with index
\x7btempA, tempB\x7d. -/
theorem C1_witness :
    (∀ m ∈ tableNames c1wdb, strLower m = m) ∧
    (hist_data_index true (fun _ => false) c1widx c1wdb).2 = false ∧
    ("tempc" ∈ tableNames (hist_data_index true (fun _ => false) c1widx c1wdb).1 ↔
      (("tempc" ∈ tableNames c1wdb ∧
          ∃ e ∈ c1widx, strLower e.tableName = strLower "tempc") ∨
        "tempc" = "historicdataindex")) :=
  ⟨by decide, by decide,
    C1_reconcile_set_equation (fun _ => false) c1widx c1wdb "tempc"
      (by decide) (by decide)⟩

/-- Claim C4 (confirmed): after hist_data_index runs (with the index fetch
succeeding), the destination historicdataindex table is exactly the fetched
index, written wholesale with replace semantics: its rows are the fetched
entries in order, one row per entry, so an index fetch of N entries yields
exactly those N entries in the mirrored table. -/
theorem C4_index_roundtrip (df : String → Bool) (idx : List IndexEntry)
    (db : DestDB) :
    lookupTable (hist_data_index true df idx db).1 "historicdataindex" =
      some (indexToTable idx) ∧
    (indexToTable idx).rows = idx.map entryToRow ∧
    (idx.map entryToRow).length = idx.length := by
  refine ⟨?_, rfl, List.length_map idx entryToRow⟩
  simp only [hist_data_index, reduceCtorEq, Bool.false_eq_true, if_false, ite_false]
  rw [lookupTable_dropLoop_hdi, lookupTable_setTable_self]

/-- Destination with two stale tables a and b, neither in the (empty) index. -/
def c5db : DestDB := [("a", ⟨[], []⟩), ("b", ⟨[], []⟩)]

/-- Claim C5 is false as stated: the DROP TABLE at line 66 has no try/except,
so when dropping stale table a fails, reconciliation aborts instead of
continuing — the equally stale table b (not in the index, not the index
table) is left in place. -/
theorem C5_counterexample :
    (hist_data_index true (fun n => n == "a") [] c5db).2 = true ∧
    "b" ∈ tableNames (hist_data_index true (fun n => n == "a") [] c5db).1 ∧
    ("b" ∉ ([] : List IndexEntry).map (fun e => strLower e.tableName) ∧
      "b" ≠ "historicdataindex") := by
  decide

/-- Claim C5 (amended): a failing DROP TABLE for a stale destination table
propagates out of the drop loop: reconciliation aborts at that table and no
later catalog entry is examined or dropped, leaving the destination exactly
as it was when the failure occurred. -/
theorem C5_drop_failure_aborts (df : String → Bool) (total : List String)
    (e : String) (rest : List String) (db : DestDB)
    (h1 : e ∉ total ∧ e ≠ "historicdataindex") (h2 : df e = true) :
    dropLoop df total (e :: rest) db = (db, true) := by
  rw [dropLoop, if_pos h1, h2]
  simp

/-- Witness for the amended claim C5: dropping a fails while the stale b is
still pending; the loop stops at once with the database unchanged. -/
theorem C5_witness :
    ("a" ∉ (["x"] : List String) ∧ "a" ≠ "historicdataindex") ∧
    dropLoop (fun n => n == "a") ["x"] ["a", "b"] c5db = (c5db, true) :=
  ⟨by decide,
    C5_drop_failure_aborts (fun n => n == "a") ["x"] "a" ["b"] c5db
      (by decide) (by decide)⟩

/-- Source table tempA of the specification scenario: 3 rows, columns x, y. -/
def srcTempA : Table :=
  ⟨["x", "y"],
   [[Cell.int 1, Cell.int 2], [Cell.int 3, Cell.int 4], [Cell.int 5, Cell.int 6]]⟩

/-- Source oracle of the scenario: only tempA exists. -/
def fetchC2 : String → Except PyExc Table :=
  fun n => if n = "tempA" then .ok srcTempA else .error .pyodbcOther

/-- Claim C2 evaluated at its failing input: the index names tempA, its fetch
and load succeed (err = none), yet the destination afterwards has no table
named tempA at all — hist_data writes every table's rows into the fixed
staging table 'temptable' (line 102) and never creates or renames a
per-table destination table.  The staging table does get the 3 rows with the
appended unique entryid column 1, 2, 3 the claim describes, but under the
wrong name. -/
theorem C2_staging_table_eval :
    (hist_data fetchC2 (fun _ => false) (fun _ => false) ["tempA"] []).err = none ∧
    lookupTable (hist_data fetchC2 (fun _ => false) (fun _ => false)
      ["tempA"] []).db "tempA" = none ∧
    lookupTable (hist_data fetchC2 (fun _ => false) (fun _ => false)
      ["tempA"] []).db "temptable" =
      some ⟨["x", "y", "entryid"],
        [[Cell.int 1, Cell.int 2, Cell.int 1],
         [Cell.int 3, Cell.int 4, Cell.int 2],
         [Cell.int 5, Cell.int 6, Cell.int 3]]⟩ := by
  decide

/-- Source oracle with table a raising a non-ProgrammingError pyodbc error
(an OperationalError, say) and every other table healthy. -/
def fetchC3 : String → Except PyExc Table :=
  fun n => if n = "a" then .error .pyodbcOther else .ok ⟨[], []⟩

/-- Claim C3 is false as stated: when the source-side fetch of table a raises
an error that is not pyodbc.ProgrammingError, the except clause at line 107
does not catch it; the loop aborts, so the remaining table b is never
processed, and nothing marks a failed anywhere (hist_data keeps no run
result at all). -/
theorem C3_counterexample :
    (hist_data fetchC3 (fun _ => false) (fun _ => false) ["a", "b"] []).err =
      some PyExc.pyodbcOther ∧
    (hist_data fetchC3 (fun _ => false) (fun _ => false) ["a", "b"] []).attempted =
      ["a"] := by
  decide

/-- Claim C3 (amended): when the source-side fetch of a table raises
pyodbc.ProgrammingError, the error is caught and logged, the destination is
left unchanged by that iteration, and the loop continues with every
remaining table exactly as if the table had not been there; no per-table
failure record is kept (the code only writes a log line). -/
theorem C3_programming_error_skips (fetch : String → Except PyExc Table)
    (lf af : String → Bool) (t : String) (rest : List String) (db : DestDB)
    (h : fetch t = .error .pyodbcProgramming) :
    hist_data fetch lf af (t :: rest) db =
      ⟨(hist_data fetch lf af rest db).db,
       t :: (hist_data fetch lf af rest db).attempted,
       (hist_data fetch lf af rest db).err⟩ := by
  simp [hist_data, syncStep, h]

/-- Witness for the amended claim C3 at a concrete input: one table whose
fetch raises pyodbc.ProgrammingError. -/
theorem C3_witness :
    hist_data (fun _ => Except.error PyExc.pyodbcProgramming) (fun _ => false)
        (fun _ => false) ["a"] [] =
      ⟨(hist_data (fun _ => Except.error PyExc.pyodbcProgramming) (fun _ => false)
          (fun _ => false) [] []).db,
       "a" :: (hist_data (fun _ => Except.error PyExc.pyodbcProgramming)
          (fun _ => false) (fun _ => false) [] []).attempted,
       (hist_data (fun _ => Except.error PyExc.pyodbcProgramming) (fun _ => false)
          (fun _ => false) [] []).err⟩ :=
  C3_programming_error_skips _ _ _ "a" [] [] rfl

/-- Claim C10 (confirmed): in the per-table loop, the only recoverable
exception type is pyodbc.ProgrammingError.  Whenever an iteration ends with
an uncaught exception — a non-ProgrammingError source-side error, or any
destination-side error from the load or the ALTER — that exception is never
pyodbc.ProgrammingError, and it propagates out of the loop at once: the
failing table is the last one attempted and no later table is processed. -/
theorem C10_only_programming_recoverable (fetch : String → Except PyExc Table)
    (lf af : String → Bool) (t : String) (rest : List String) (db : DestDB)
    (e : PyExc) (h : (syncStep fetch lf af t db).2 = some e) :
    e ≠ PyExc.pyodbcProgramming ∧
    hist_data fetch lf af (t :: rest) db =
      ⟨(syncStep fetch lf af t db).1, [t], some e⟩ := by
  constructor
  · intro he
    subst he
    simp only [syncStep] at h
    cases hf : fetch t with
    | error e1 =>
      rw [hf] at h
      cases e1 <;> simp at h
    | ok tbl =>
      rw [hf] at h
      by_cases hl : lf t = true
      · simp [hl] at h
      · by_cases ha : af t = true
        · simp [hl, ha] at h
        · simp [hl, ha] at h
  · have hp : syncStep fetch lf af t db = ((syncStep fetch lf af t db).1, some e) := by
      rw [← h]
    rw [hist_data, hp]

/-- Witness for claim C10: table a fails with a non-ProgrammingError while
table b is still pending; the loop stops after a. -/
theorem C10_witness :
    PyExc.pyodbcOther ≠ PyExc.pyodbcProgramming ∧
    hist_data (fun _ => Except.error PyExc.pyodbcOther) (fun _ => false)
        (fun _ => false) ["a", "b"] [] =
      ⟨(syncStep (fun _ => Except.error PyExc.pyodbcOther) (fun _ => false)
          (fun _ => false) "a" []).1, ["a"], some PyExc.pyodbcOther⟩ :=
  C10_only_programming_recoverable _ _ _ "a" ["b"] [] PyExc.pyodbcOther rfl

/-- Fully healthy run whose reconciliation step takes 60 seconds of wall
clock and whose transfer step takes 2 seconds. -/
def envC6 : Env :=
  ⟨true, true, true, true, [], fun _ => false, fun _ => .ok ⟨[], []⟩,
   fun _ => false, fun _ => false, 60, 2⟩

/-- Claim C6 is false as stated: the timer starts at line 148, after
hist_data_index has already returned, so the reported elapsed time covers
only the hist_data transfer step.  With reconciliation taking 60 s and the
transfer 2 s, the run reports 0:00:02, not the 0:01:02 that a measurement
across both steps would give. -/
theorem C6_counterexample :
    (table_transfer envC6 []).reported = some "0:00:02" ∧
    convert_time envC6.transferSecs = "0:00:02" ∧
    convert_time (envC6.reconcileSecs + envC6.transferSecs) = "0:01:02" ∧
    "0:00:02" ≠ "0:01:02" := by
  decide

/-- Claim C6 (amended): the reported elapsed time of a successful run is the
wall-clock duration of the table-transfer step only (the timer starts after
reconciliation), formatted H:MM:SS by convert_time: unpadded hours, then
minutes and seconds zero-padded to two digits. -/
theorem C6_elapsed_transfer_only (env : Env) (db0 : DestDB)
    (h : (table_transfer env db0).fatal = false) :
    (table_transfer env db0).reported = some (convert_time env.transferSecs) ∧
    convert_time env.transferSecs =
      toString (env.transferSecs / 3600) ++ ":" ++
        fmt2 (env.transferSecs / 60 % 60) ++ ":" ++ fmt2 (env.transferSecs % 60) := by
  constructor
  · cases hd : env.destConnectOk with
    | false => simp [table_transfer, hd] at h
    | true =>
      cases hv : env.versionProbeOk with
      | false => simp [table_transfer, hd, hv] at h
      | true =>
        cases hs : env.sourceConnectOk with
        | false => simp [table_transfer, hd, hv, hs] at h
        | true =>
          rcases hr : hist_data_index env.indexFetchOk env.dropFails
            env.fetchedIndex db0 with ⟨db1, b⟩
          cases b with
          | false =>
            cases he : (hist_data env.fetch env.loadFails env.alterFails
              (env.fetchedIndex.map fun e => e.tableName) db1).err with
            | none => simp [table_transfer, hd, hv, hs, hr, he]
            | some e1 => simp [table_transfer, hd, hv, hs, hr, he] at h
          | true => simp [table_transfer, hd, hv, hs, hr] at h
  · simp only [convert_time]
    rw [Nat.div_div_eq_div_mul]

/-- Healthy run taking 3723 s (1:02:03) of transfer time. -/
def envC6w : Env :=
  ⟨true, true, true, true, [], fun _ => false, fun _ => .ok ⟨[], []⟩,
   fun _ => false, fun _ => false, 0, 3723⟩

/-- Witness for the amended claim C6 on a healthy run. -/
theorem C6_witness :
    (table_transfer envC6w []).fatal = false ∧
    ((table_transfer envC6w []).reported = some (convert_time envC6w.transferSecs) ∧
     convert_time envC6w.transferSecs =
       toString (envC6w.transferSecs / 3600) ++ ":" ++
         fmt2 (envC6w.transferSecs / 60 % 60) ++ ":" ++
         fmt2 (envC6w.transferSecs % 60)) :=
  ⟨by decide, C6_elapsed_transfer_only envC6w [] (by decide)⟩

/-- Run whose index fetch inside hist_data_index raises after the source
connection has been opened. -/
def envC7 : Env :=
  ⟨true, true, true, false, [], fun _ => false, fun _ => .ok ⟨[], []⟩,
   fun _ => false, fun _ => false, 0, 0⟩

/-- Claim C7 is false as stated: a run that fails after the source connection
is opened (here the index fetch at line 59 raises) leaves fern_conn open on
exit — the only fern_conn.close() is at line 153, on the success path, and
there is no try/finally. -/
theorem C7_counterexample :
    (table_transfer envC7 []).fatal = true ∧
    (table_transfer envC7 []).fernOpen = true := by
  decide

/-- Claim C7 (amended): connections are released only on specific paths, not
unconditionally.  The source connection is still open on exit exactly when
the run got past the three connection steps and then failed (reconciliation
or transfer raised); the probe connection dbcnxn is still open on exit
exactly when it was opened and the version probe raised before the
dbcnxn.close() at line 141. -/
theorem C7_connection_release_paths (env : Env) (db0 : DestDB) :
    ((table_transfer env db0).fernOpen = true ↔
      (env.destConnectOk = true ∧ env.versionProbeOk = true ∧
       env.sourceConnectOk = true ∧ (table_transfer env db0).fatal = true)) ∧
    ((table_transfer env db0).destConnOpen = true ↔
      (env.destConnectOk = true ∧ env.versionProbeOk = false)) := by
  cases hd : env.destConnectOk with
  | false => simp [table_transfer, hd]
  | true =>
    cases hv : env.versionProbeOk with
    | false => simp [table_transfer, hd, hv]
    | true =>
      cases hs : env.sourceConnectOk with
      | false => simp [table_transfer, hd, hv, hs]
      | true =>
        rcases hr : hist_data_index env.indexFetchOk env.dropFails
          env.fetchedIndex db0 with ⟨db1, b⟩
        cases b with
        | false =>
          cases he : (hist_data env.fetch env.loadFails env.alterFails
            (env.fetchedIndex.map fun e => e.tableName) db1).err with
          | none => simp [table_transfer, hd, hv, hs, hr, he]
          | some e1 => simp [table_transfer, hd, hv, hs, hr, he]
        | true => simp [table_transfer, hd, hv, hs, hr]

/-- Run whose destination connection cannot be opened. -/
def envC9 : Env :=
  ⟨false, true, true, true, [], fun _ => false, fun _ => .ok ⟨[], []⟩,
   fun _ => false, fun _ => false, 0, 0⟩

/-- Claim C9 (confirmed): when dbengine.connect() at line 136 raises, the run
aborts fatally before anything else happens: the destination state is
exactly the prior state and no table was attempted. -/
theorem C9_dest_connect_failure_no_mutation (env : Env) (db0 : DestDB)
    (h : env.destConnectOk = false) :
    (table_transfer env db0).db = db0 ∧
    (table_transfer env db0).attempted = [] ∧
    (table_transfer env db0).fatal = true := by
  simp [table_transfer, h]

/-- Witness for claim C9: destination connection refused against a nonempty
destination, which stays untouched. -/
theorem C9_witness :
    (table_transfer envC9 [("x", ⟨[], []⟩)]).db = [("x", ⟨[], []⟩)] ∧
    (table_transfer envC9 [("x", ⟨[], []⟩)]).attempted = [] ∧
    (table_transfer envC9 [("x", ⟨[], []⟩)]).fatal = true :=
  C9_dest_connect_failure_no_mutation envC9 [("x", ⟨[], []⟩)] rfl

/-- Claim C8 is false as stated.  First conjunct: with a run active
(updating = true), the Start Update button (lines 340-344) starts another
run — the manual branch has no updating guard.  Remaining conjuncts: a
scheduled trigger fires at 6:00:30; the run completes at 6:00:40 (updating
cleared); at 6:00:50, still inside the same one-minute window, the scheduled
check fires again, a second run in the window in which one already started. -/
theorem C8_counterexample :
    (mainStep false 0 GuiEvent.startUpdate ⟨true, 1⟩).runsStarted = 2 ∧
    (mainStep true 21630 GuiEvent.timeout ⟨false, 0⟩).runsStarted = 1 ∧
    (mainStep true 21650 GuiEvent.timeout
      (mainStep true 21640 GuiEvent.updateComplete
        (mainStep true 21630 GuiEvent.timeout ⟨false, 0⟩))).runsStarted = 2 := by
  decide

/-- Claim C8 (amended): while a run is active (updating = true) a scheduled
trigger never starts another run, but a manual Start Update always starts
one more run, active run or not; and once a run completes inside its window
the scheduled trigger may fire again in that window. -/
theorem C8_scheduled_guarded_manual_not (au : Bool) (now : Nat) (s : GuiState)
    (h : s.updating = true) :
    (mainStep au now GuiEvent.timeout s).runsStarted = s.runsStarted ∧
    (mainStep au now GuiEvent.startUpdate s).runsStarted = s.runsStarted + 1 := by
  simp [mainStep, h]

/-- Witness for the amended claim C8: state with a run active. -/
theorem C8_witness :
    (mainStep true 21630 GuiEvent.timeout ⟨true, 5⟩).runsStarted = 5 ∧
    (mainStep true 21630 GuiEvent.startUpdate ⟨true, 5⟩).runsStarted = 5 + 1 :=
  C8_scheduled_guarded_manual_not true 21630 ⟨true, 5⟩ rfl

end FDT
